import Mathlib

/-!
Shallow embedding of the form-handling logic of the repository:
the PostForm organism (src/components/organisms/PostForm.tsx) and the
LoginForm organism, together with the string/validation utilities they
import.  Component state is modelled explicitly; each React event handler
becomes a pure state-transition function, and the asynchronous submit
handler is split into its synchronous prefix (up to the awaited server
call) and its resolution (the success / failure / thrown branches plus
the finally block).
-/

namespace Payload

/-- Form data held by the PostForm component: title, slug, content and the
list of selected category ids (PostFormData in the source). -/
structure PostFormData where
  title : String
  slug : String
  content : String
  categories : List String
deriving Repr, DecidableEq

/-- The initial and reset PostForm data: every field empty, no categories. -/
def initialPostFormData : PostFormData :=
  { title := "", slug := "", content := "", categories := [] }

/-- Field-level error map for the PostForm (FormErrors over PostFormData).
A field maps to some message when it currently has a validation error. -/
structure PostFormErrors where
  title : Option String
  slug : Option String
  content : Option String
deriving Repr, DecidableEq

/-- The empty error map, the initial errors state. -/
def noPostErrors : PostFormErrors :=
  { title := none, slug := none, content := none }

/-- The named text fields of the PostForm that flow through handleChange. -/
inductive PostField where
  | title
  | slug
  | content
deriving Repr, DecidableEq

/-- Look up the error entry of one field of the PostForm error map. -/
def PostFormErrors.get (e : PostFormErrors) : PostField → Option String
  | .title => e.title
  | .slug => e.slug
  | .content => e.content

/-- Nonemptiness of the error map, mirroring the JavaScript test
Object.keys(validationErrors).length > 0 in handleSubmit. -/
def postErrorsNonEmpty (e : PostFormErrors) : Bool :=
  e.title.isSome || e.slug.isSome || e.content.isSome

/-- Full local state of the PostForm component: the useState hooks
formData, errors, isSubmitting, serverError, successMessage and
isSlugManuallyEdited, plus a counter of onSuccess callback invocations
standing for the signal sent to the parent. -/
structure PostFormState where
  formData : PostFormData
  errors : PostFormErrors
  isSubmitting : Bool
  serverError : String
  successMessage : String
  isSlugManuallyEdited : Bool
  onSuccessCalls : Nat
deriving Repr, DecidableEq

/-- The state of a freshly mounted PostForm. -/
def initialPostFormState : PostFormState :=
  { formData := initialPostFormData
    errors := noPostErrors
    isSubmitting := false
    serverError := ""
    successMessage := ""
    isSlugManuallyEdited := false
    onSuccessCalls := 0 }

/-- Character-level slug mapping: letters are lowercased, digits kept,
anything else (whitespace, punctuation) becomes a hyphen. -/
def slugChar (c : Char) : Char :=
  if c.isAlpha then c.toLower
  else if c.isDigit then c
  else '-'

/-- Modelled from the spec: generateSlug from the utils/string module is
imported by PostForm.tsx but its source is not in the repository snapshot.
The spec describes it as deriving the slug deterministically from the
title, lowercase, with whitespace and punctuation turned into hyphens. -/
def generateSlug (s : String) : String :=
  String.mk (s.data.map slugChar)

/-- Modelled from the spec: validatePostForm from the utils/validation
module is imported by PostForm.tsx but its source is not in the repository
snapshot.  The spec describes validation as a pure function from form data
to an error mapping, with an empty title or content reported as an error. -/
def validatePostForm (d : PostFormData) : PostFormErrors :=
  { title := if d.title = "" then some "Title is required" else none
    slug := none
    content := if d.content = "" then some "Content is required" else none }

/-- The handleChange handler of PostForm (lines 36-61): update the named
field; when the title changes and the slug has not been manually edited,
auto-generate the slug from the new title; a change to the slug field
marks it manually edited; a field with a current error has that error
cleared; a non-empty serverError or successMessage is cleared. -/
def postHandleChange (s : PostFormState) (f : PostField) (value : String) :
    PostFormState :=
  let fd := s.formData
  let newData : PostFormData :=
    match f with
    | .title =>
        if s.isSlugManuallyEdited then { fd with title := value }
        else { fd with title := value, slug := generateSlug value }
    | .slug => { fd with slug := value }
    | .content => { fd with content := value }
  let newErrors : PostFormErrors :=
    if (s.errors.get f).isSome then
      match f with
      | .title => { s.errors with title := none }
      | .slug => { s.errors with slug := none }
      | .content => { s.errors with content := none }
    else s.errors
  { s with
    formData := newData
    errors := newErrors
    isSlugManuallyEdited := s.isSlugManuallyEdited || f == PostField.slug
    serverError := ""
    successMessage := "" }

/-- A sequence of change events applied in order to a PostForm state. -/
def applyPostChanges (s : PostFormState) (evs : List (PostField × String)) :
    PostFormState :=
  evs.foldl (fun st ev => postHandleChange st ev.1 ev.2) s

/-- The handleCategoryToggle handler of PostForm (lines 63-75): remove the
category id from the selection when present, append it when absent. -/
def handleCategoryToggle (s : PostFormState) (categoryId : String) :
    PostFormState :=
  let currentCategories := s.formData.categories
  let newCategories :=
    if categoryId ∈ currentCategories then
      currentCategories.filter (fun i => i != categoryId)
    else currentCategories ++ [categoryId]
  { s with formData := { s.formData with categories := newCategories } }

/-- Outcome of the awaited server action: the promise resolved with
success true, resolved with success false carrying an optional error
string, or rejected (the exception caught by the catch block). -/
inductive ServerOutcome where
  | success
  | failure (error : Option String)
  | thrown
deriving Repr, DecidableEq

/-- The JavaScript expression e || d for an optional error string: a
missing or empty message falls back to the default. -/
def orFallback : Option String → String → String
  | none, d => d
  | some e, d => if e = "" then d else e

/-- Synchronous prefix of PostForm handleSubmit (lines 77-88): clear
serverError and successMessage, validate; on a non-empty error map store
it and stop (no server call, second component false); otherwise set
isSubmitting and start the createPost call (second component true). -/
def postSubmitStart (s : PostFormState) : PostFormState × Bool :=
  let s1 := { s with serverError := "", successMessage := "" }
  let validationErrors := validatePostForm s1.formData
  if postErrorsNonEmpty validationErrors then
    ({ s1 with errors := validationErrors }, false)
  else
    ({ s1 with isSubmitting := true }, true)

/-- Resolution of the awaited createPost call in PostForm handleSubmit
(lines 90-112): on success set the success message, reset the form data,
clear the manual-slug flag and signal onSuccess; on failure set
serverError to the result error or its fallback; on a thrown exception
set the generic message; the finally block clears isSubmitting. -/
def postSubmitResolve (s : PostFormState) (o : ServerOutcome) : PostFormState :=
  let s3 :=
    match o with
    | .success =>
        { s with
          successMessage := "Post created successfully!"
          formData := initialPostFormData
          isSlugManuallyEdited := false
          onSuccessCalls := s.onSuccessCalls + 1 }
    | .failure err => { s with serverError := orFallback err "Failed to create post" }
    | .thrown => { s with serverError := "An unexpected error occurred" }
  { s3 with isSubmitting := false }

/-- The whole handleSubmit of PostForm as one transition, given the
outcome the server call would have: the synchronous prefix followed, when
a call was started, by its resolution. -/
def postHandleSubmit (s : PostFormState) (o : ServerOutcome) : PostFormState :=
  let started := postSubmitStart s
  if started.2 then postSubmitResolve started.1 o else started.1

/-- The Clear button handler of PostForm (lines 200-210): reset form data
and errors, clear serverError and successMessage. -/
def postHandleClear (s : PostFormState) : PostFormState :=
  { s with
    formData := initialPostFormData
    errors := noPostErrors
    serverError := ""
    successMessage := "" }

/-- UI-level state of a mounted PostForm: the component state plus the
number of createPost calls currently in flight. -/
structure PostUIState where
  form : PostFormState
  flight : Nat
deriving Repr, DecidableEq

/-- A freshly mounted PostForm with no call in flight. -/
def postInit : PostUIState :=
  { form := initialPostFormState, flight := 0 }

/-- Event-step relation of the PostForm UI.  Every input, checkbox and
button carries disabled set to isSubmitting, so change, toggle, clear and
submit events can only be delivered while isSubmitting is false; a server
call resolves only while one is in flight.  Starting a submission that
passes validation puts one call in flight; its resolution removes it. -/
inductive postStep : PostUIState → PostUIState → Prop where
  | change (u : PostUIState) (f : PostField) (v : String)
      (hsub : u.form.isSubmitting = false) :
      postStep u { form := postHandleChange u.form f v, flight := u.flight }
  | toggle (u : PostUIState) (categoryId : String)
      (hsub : u.form.isSubmitting = false) :
      postStep u { form := handleCategoryToggle u.form categoryId, flight := u.flight }
  | clear (u : PostUIState)
      (hsub : u.form.isSubmitting = false) :
      postStep u { form := postHandleClear u.form, flight := u.flight }
  | submitStart (u : PostUIState)
      (hsub : u.form.isSubmitting = false) :
      postStep u { form := (postSubmitStart u.form).1,
                   flight := u.flight + (if (postSubmitStart u.form).2 then 1 else 0) }
  | submitResolve (u : PostUIState) (o : ServerOutcome)
      (hfl : 0 < u.flight) :
      postStep u { form := postSubmitResolve u.form o, flight := u.flight - 1 }

/-- States of the PostForm UI reachable from a fresh mount by event steps. -/
inductive PostReachable : PostUIState → Prop where
  | init : PostReachable postInit
  | step {s t : PostUIState} (hs : PostReachable s) (h : postStep s t) :
      PostReachable t

/-- Form data held by the LoginForm component (LoginFormData). -/
structure LoginFormData where
  email : String
  password : String
deriving Repr, DecidableEq

/-- The initial LoginForm data: both fields empty. -/
def initialLoginFormData : LoginFormData :=
  { email := "", password := "" }

/-- Field-level error map for the LoginForm. -/
structure LoginFormErrors where
  email : Option String
  password : Option String
deriving Repr, DecidableEq

/-- The empty LoginForm error map. -/
def noLoginErrors : LoginFormErrors :=
  { email := none, password := none }

/-- The named fields of the LoginForm. -/
inductive LoginField where
  | email
  | password
deriving Repr, DecidableEq

/-- Look up the error entry of one field of the LoginForm error map. -/
def LoginFormErrors.get (e : LoginFormErrors) : LoginField → Option String
  | .email => e.email
  | .password => e.password

/-- Nonemptiness of the LoginForm error map. -/
def loginErrorsNonEmpty (e : LoginFormErrors) : Bool :=
  e.email.isSome || e.password.isSome

/-- Full local state of the LoginForm component: formData, errors,
isSubmitting and serverError (the LoginForm has no success message),
plus a counter of onSuccess invocations. -/
structure LoginFormState where
  formData : LoginFormData
  errors : LoginFormErrors
  isSubmitting : Bool
  serverError : String
  onSuccessCalls : Nat
deriving Repr, DecidableEq

/-- The state of a freshly mounted LoginForm. -/
def initialLoginFormState : LoginFormState :=
  { formData := initialLoginFormData
    errors := noLoginErrors
    isSubmitting := false
    serverError := ""
    onSuccessCalls := 0 }

/-- Modelled from the spec: validateLoginForm from the utils/validation
module is imported by the LoginForm organism but its source is not in the
repository snapshot.  Per the spec it is a pure function from form data to
an error mapping, an empty field being reported as an error. -/
def validateLoginForm (d : LoginFormData) : LoginFormErrors :=
  { email := if d.email = "" then some "Email is required" else none
    password := if d.password = "" then some "Password is required" else none }

/-- The handleChange handler of LoginForm (lines 30-37): update the named
field, clear that field's error when present, clear a non-empty
serverError. -/
def loginHandleChange (s : LoginFormState) (f : LoginField) (value : String) :
    LoginFormState :=
  let fd := s.formData
  let newData : LoginFormData :=
    match f with
    | .email => { fd with email := value }
    | .password => { fd with password := value }
  let newErrors : LoginFormErrors :=
    if (s.errors.get f).isSome then
      match f with
      | .email => { s.errors with email := none }
      | .password => { s.errors with password := none }
    else s.errors
  { s with formData := newData, errors := newErrors, serverError := "" }

/-- Synchronous prefix of LoginForm handleSubmit (lines 39-49): clear
serverError, validate; on a non-empty error map store it and stop (second
component false); otherwise set isSubmitting and start the authorizeUser
call (second component true). -/
def loginSubmitStart (s : LoginFormState) : LoginFormState × Bool :=
  let s1 := { s with serverError := "" }
  let validationErrors := validateLoginForm s1.formData
  if loginErrorsNonEmpty validationErrors then
    ({ s1 with errors := validationErrors }, false)
  else
    ({ s1 with isSubmitting := true }, true)

/-- Resolution of the awaited authorizeUser call in LoginForm handleSubmit
(lines 51-64): on success signal onSuccess (the form data is not reset);
on failure set serverError to the result error or its fallback; on a
thrown exception set the generic message; finally clear isSubmitting. -/
def loginSubmitResolve (s : LoginFormState) (o : ServerOutcome) : LoginFormState :=
  let s3 :=
    match o with
    | .success => { s with onSuccessCalls := s.onSuccessCalls + 1 }
    | .failure err => { s with serverError := orFallback err "Authentication failed" }
    | .thrown => { s with serverError := "An unexpected error occurred" }
  { s3 with isSubmitting := false }

/-- The whole handleSubmit of LoginForm as one transition, given the
outcome the server call would have. -/
def loginHandleSubmit (s : LoginFormState) (o : ServerOutcome) : LoginFormState :=
  let started := loginSubmitStart s
  if started.2 then loginSubmitResolve started.1 o else started.1

/-! Projection lemmas for the PostForm transition functions. -/

@[simp] lemma postHandleChange_serverError (s : PostFormState) (f : PostField) (v : String) :
    (postHandleChange s f v).serverError = "" := rfl

@[simp] lemma postHandleChange_successMessage (s : PostFormState) (f : PostField) (v : String) :
    (postHandleChange s f v).successMessage = "" := rfl

@[simp] lemma postHandleChange_isSubmitting (s : PostFormState) (f : PostField) (v : String) :
    (postHandleChange s f v).isSubmitting = s.isSubmitting := rfl

@[simp] lemma postHandleChange_onSuccessCalls (s : PostFormState) (f : PostField) (v : String) :
    (postHandleChange s f v).onSuccessCalls = s.onSuccessCalls := rfl

@[simp] lemma postHandleChange_manualFlag (s : PostFormState) (f : PostField) (v : String) :
    (postHandleChange s f v).isSlugManuallyEdited =
      (s.isSlugManuallyEdited || f == PostField.slug) := rfl

@[simp] lemma handleCategoryToggle_serverError (s : PostFormState) (c : String) :
    (handleCategoryToggle s c).serverError = s.serverError := rfl

@[simp] lemma handleCategoryToggle_successMessage (s : PostFormState) (c : String) :
    (handleCategoryToggle s c).successMessage = s.successMessage := rfl

@[simp] lemma handleCategoryToggle_isSubmitting (s : PostFormState) (c : String) :
    (handleCategoryToggle s c).isSubmitting = s.isSubmitting := rfl

@[simp] lemma handleCategoryToggle_title (s : PostFormState) (c : String) :
    (handleCategoryToggle s c).formData.title = s.formData.title := rfl

@[simp] lemma postHandleClear_serverError (s : PostFormState) :
    (postHandleClear s).serverError = "" := rfl

@[simp] lemma postHandleClear_successMessage (s : PostFormState) :
    (postHandleClear s).successMessage = "" := rfl

@[simp] lemma postHandleClear_isSubmitting (s : PostFormState) :
    (postHandleClear s).isSubmitting = s.isSubmitting := rfl

@[simp] lemma postSubmitResolve_isSubmitting (s : PostFormState) (o : ServerOutcome) :
    (postSubmitResolve s o).isSubmitting = false := by
  cases o <;> rfl

/-- The success branch of the resolved createPost call, spelt out. -/
lemma postSubmitResolve_success (s : PostFormState) :
    postSubmitResolve s ServerOutcome.success =
      { s with
        successMessage := "Post created successfully!"
        formData := initialPostFormData
        isSlugManuallyEdited := false
        onSuccessCalls := s.onSuccessCalls + 1
        isSubmitting := false } := rfl

/-- The failure branch of the resolved createPost call, spelt out. -/
lemma postSubmitResolve_failure (s : PostFormState) (err : Option String) :
    postSubmitResolve s (ServerOutcome.failure err) =
      { s with
        serverError := orFallback err "Failed to create post"
        isSubmitting := false } := rfl

/-- The catch branch of the resolved createPost call, spelt out. -/
lemma postSubmitResolve_thrown (s : PostFormState) :
    postSubmitResolve s ServerOutcome.thrown =
      { s with
        serverError := "An unexpected error occurred"
        isSubmitting := false } := rfl

/-- Validation of the post form succeeds exactly when title and content
are both non-empty. -/
lemma postValid_iff (d : PostFormData) :
    postErrorsNonEmpty (validatePostForm d) = false ↔ (d.title ≠ "" ∧ d.content ≠ "") := by
  by_cases ht : d.title = "" <;> by_cases hc : d.content = "" <;>
    simp [postErrorsNonEmpty, validatePostForm, ht, hc]

/-- On failed validation, handleSubmit stores the error map and starts no
server call; nothing else changes. -/
lemma postSubmitStart_of_invalid (s : PostFormState)
    (h : postErrorsNonEmpty (validatePostForm s.formData) = true) :
    postSubmitStart s =
      ({ s with serverError := "", successMessage := "",
                errors := validatePostForm s.formData }, false) := by
  simp only [postSubmitStart]
  rw [if_pos]
  exact h

/-- On passed validation, handleSubmit clears the banners, raises the
submitting flag and starts the server call. -/
lemma postSubmitStart_of_valid (s : PostFormState)
    (h : postErrorsNonEmpty (validatePostForm s.formData) = false) :
    postSubmitStart s =
      ({ s with serverError := "", successMessage := "", isSubmitting := true }, true) := by
  simp only [postSubmitStart]
  rw [if_neg]
  simp [h]

/-- A server call is started exactly when validation passes. -/
lemma postSubmitStart_called_iff (s : PostFormState) :
    (postSubmitStart s).2 = true ↔
      postErrorsNonEmpty (validatePostForm s.formData) = false := by
  by_cases h : postErrorsNonEmpty (validatePostForm s.formData) = true
  · rw [postSubmitStart_of_invalid s h]
    simp [h]
  · rw [postSubmitStart_of_valid s (by simpa using h)]
    simpa using h

/-- Inductive invariant of the PostForm UI: the two banners are never both
non-empty; a visible success message implies the form data has been reset
(witnessed here by an empty title); while the submitting flag is up both
banners are empty; and the number of in-flight createPost calls is one
while submitting and zero otherwise. -/
def PostInv (u : PostUIState) : Prop :=
  (u.form.serverError = "" ∨ u.form.successMessage = "") ∧
  (u.form.successMessage ≠ "" → u.form.formData.title = "") ∧
  (u.form.isSubmitting = true → u.form.serverError = "" ∧ u.form.successMessage = "") ∧
  u.flight = (if u.form.isSubmitting then 1 else 0)

/-- The invariant holds at mount. -/
lemma postInv_init : PostInv postInit :=
  ⟨Or.inl rfl, fun _ => rfl, fun _ => ⟨rfl, rfl⟩, rfl⟩

/-- Every event step of the PostForm UI preserves the invariant. -/
lemma postInv_step {u t : PostUIState} (hu : PostInv u) (h : postStep u t) :
    PostInv t := by
  obtain ⟨h1, h2, h3, h4⟩ := hu
  cases h with
  | change f v hsub =>
      refine ⟨Or.inl rfl, fun hm => absurd rfl hm, fun hb => ⟨rfl, rfl⟩, ?_⟩
      simpa [hsub] using h4
  | toggle c hsub =>
      refine ⟨?_, ?_, ?_, ?_⟩
      · simpa using h1
      · simpa using h2
      · intro hb
        simp only [handleCategoryToggle_isSubmitting] at hb
        rw [hsub] at hb
        exact absurd hb (by simp)
      · simpa [hsub] using h4
  | clear hsub =>
      refine ⟨Or.inl rfl, fun hm => absurd rfl hm, ?_, ?_⟩
      · intro hb
        simp only [postHandleClear_isSubmitting] at hb
        rw [hsub] at hb
        exact absurd hb (by simp)
      · simpa [hsub] using h4
  | submitStart hsub =>
      by_cases hval : postErrorsNonEmpty (validatePostForm u.form.formData) = true
      · rw [postSubmitStart_of_invalid u.form hval]
        refine ⟨Or.inl rfl, fun hm => absurd rfl hm, fun hb => by simp [hsub] at hb, ?_⟩
        simp only [postSubmitStart_of_invalid u.form hval]
        simpa [hsub] using h4
      · replace hval : postErrorsNonEmpty (validatePostForm u.form.formData) = false := by
          simpa using hval
        rw [postSubmitStart_of_valid u.form hval]
        refine ⟨Or.inl rfl, fun hm => absurd rfl hm, fun _ => ⟨rfl, rfl⟩, ?_⟩
        simp only [postSubmitStart_of_valid u.form hval]
        simpa [hsub] using h4
  | submitResolve o hfl =>
      have hsub : u.form.isSubmitting = true := by
        by_contra hb
        rw [if_neg hb] at h4
        omega
      obtain ⟨hse, hsm⟩ := h3 hsub
      have hflight : u.flight = 1 := by
        rw [h4, if_pos hsub]
      cases o with
      | success =>
          rw [postSubmitResolve_success]
          exact ⟨Or.inl hse, fun _ => rfl, fun hb => by simp at hb, by simp [hflight]⟩
      | failure err =>
          rw [postSubmitResolve_failure]
          exact ⟨Or.inr hsm, fun hm => absurd hsm (by simp [hsm] at hm),
            fun hb => by simp at hb, by simp [hflight]⟩
      | thrown =>
          rw [postSubmitResolve_thrown]
          exact ⟨Or.inr hsm, fun hm => absurd hsm (by simp [hsm] at hm),
            fun hb => by simp at hb, by simp [hflight]⟩

/-- Every reachable state of the PostForm UI satisfies the invariant. -/
lemma postInv_reachable {u : PostUIState} (h : PostReachable u) : PostInv u := by
  induction h with
  | init => exact postInv_init
  | step _ hstep ih => exact postInv_step ih hstep

/-! Projection and branch lemmas for the LoginForm transition functions. -/

/-- Validation of the login form succeeds exactly when email and password
are both non-empty. -/
lemma loginValid_iff (d : LoginFormData) :
    loginErrorsNonEmpty (validateLoginForm d) = false ↔
      (d.email ≠ "" ∧ d.password ≠ "") := by
  by_cases he : d.email = "" <;> by_cases hp : d.password = "" <;>
    simp [loginErrorsNonEmpty, validateLoginForm, he, hp]

/-- On failed validation, the LoginForm handleSubmit stores the error map
and starts no server call. -/
lemma loginSubmitStart_of_invalid (s : LoginFormState)
    (h : loginErrorsNonEmpty (validateLoginForm s.formData) = true) :
    loginSubmitStart s =
      ({ s with serverError := "", errors := validateLoginForm s.formData }, false) := by
  simp only [loginSubmitStart]
  rw [if_pos]
  exact h

/-- On passed validation, the LoginForm handleSubmit clears the banner,
raises the submitting flag and starts the server call. -/
lemma loginSubmitStart_of_valid (s : LoginFormState)
    (h : loginErrorsNonEmpty (validateLoginForm s.formData) = false) :
    loginSubmitStart s =
      ({ s with serverError := "", isSubmitting := true }, true) := by
  simp only [loginSubmitStart]
  rw [if_neg]
  simp [h]

/-- The LoginForm server call is started exactly when validation passes. -/
lemma loginSubmitStart_called_iff (s : LoginFormState) :
    (loginSubmitStart s).2 = true ↔
      loginErrorsNonEmpty (validateLoginForm s.formData) = false := by
  by_cases h : loginErrorsNonEmpty (validateLoginForm s.formData) = true
  · rw [loginSubmitStart_of_invalid s h]
    simp [h]
  · rw [loginSubmitStart_of_valid s (by simpa using h)]
    simpa using h

/-- The success branch of the resolved authorizeUser call, spelt out:
only the onSuccess signal and the submitting flag change. -/
lemma loginSubmitResolve_success (s : LoginFormState) :
    loginSubmitResolve s ServerOutcome.success =
      { s with onSuccessCalls := s.onSuccessCalls + 1, isSubmitting := false } := rfl

/-- The failure branch of the resolved authorizeUser call, spelt out. -/
lemma loginSubmitResolve_failure (s : LoginFormState) (err : Option String) :
    loginSubmitResolve s (ServerOutcome.failure err) =
      { s with serverError := orFallback err "Authentication failed"
               isSubmitting := false } := rfl

/-- The catch branch of the resolved authorizeUser call, spelt out. -/
lemma loginSubmitResolve_thrown (s : LoginFormState) :
    loginSubmitResolve s ServerOutcome.thrown =
      { s with serverError := "An unexpected error occurred"
               isSubmitting := false } := rfl

/-- The error map produced by a PostForm change event, spelt out. -/
lemma postHandleChange_errors (s : PostFormState) (f : PostField) (v : String) :
    (postHandleChange s f v).errors =
      (if (s.errors.get f).isSome then
        match f with
        | .title => { s.errors with title := none }
        | .slug => { s.errors with slug := none }
        | .content => { s.errors with content := none }
      else s.errors) := rfl

/-- The error map produced by a LoginForm change event, spelt out. -/
lemma loginHandleChange_errors (s : LoginFormState) (f : LoginField) (v : String) :
    (loginHandleChange s f v).errors =
      (if (s.errors.get f).isSome then
        match f with
        | .email => { s.errors with email := none }
        | .password => { s.errors with password := none }
      else s.errors) := rfl

/-- The category list produced by a toggle, spelt out. -/
lemma handleCategoryToggle_categories (s : PostFormState) (c : String) :
    (handleCategoryToggle s c).formData.categories =
      (if c ∈ s.formData.categories then
        s.formData.categories.filter (fun i => i != c)
      else s.formData.categories ++ [c]) := rfl

/-- A cons step of a change-event sequence. -/
lemma applyPostChanges_cons (s : PostFormState) (e : PostField × String)
    (evs : List (PostField × String)) :
    applyPostChanges s (e :: evs) = applyPostChanges (postHandleChange s e.1 e.2) evs := rfl

/-- Frame of a non-success resolution of a PostForm submission started
from a reachable UI state: form data, field errors, success message,
manual-slug flag and the onSuccess count are all exactly as they were
when the submission started, and the submitting flag ends lowered. -/
lemma post_resolve_nonsuccess_frame (u : PostUIState) (hr : PostReachable u)
    (o : ServerOutcome) (ho : o ≠ ServerOutcome.success)
    (hcall : (postSubmitStart u.form).2 = true) :
    (postSubmitResolve (postSubmitStart u.form).1 o).formData = u.form.formData ∧
    (postSubmitResolve (postSubmitStart u.form).1 o).errors = u.form.errors ∧
    (postSubmitResolve (postSubmitStart u.form).1 o).successMessage = u.form.successMessage ∧
    (postSubmitResolve (postSubmitStart u.form).1 o).isSlugManuallyEdited =
      u.form.isSlugManuallyEdited ∧
    (postSubmitResolve (postSubmitStart u.form).1 o).onSuccessCalls = u.form.onSuccessCalls ∧
    (postSubmitResolve (postSubmitStart u.form).1 o).isSubmitting = false := by
  have hval := (postSubmitStart_called_iff u.form).mp hcall
  have htitle : u.form.formData.title ≠ "" := ((postValid_iff _).mp hval).1
  have hsm : u.form.successMessage = "" := by
    by_contra hm
    exact htitle ((postInv_reachable hr).2.1 hm)
  rw [postSubmitStart_of_valid u.form hval]
  cases o with
  | success => exact absurd rfl ho
  | failure err =>
      rw [postSubmitResolve_failure]
      simp [hsm]
  | thrown =>
      rw [postSubmitResolve_thrown]
      simp [hsm]

/-- Frame of a non-success resolution of a LoginForm submission: form
data, field errors and the onSuccess count are unchanged, and the
submitting flag ends lowered. -/
lemma login_resolve_nonsuccess_frame (s : LoginFormState)
    (o : ServerOutcome) (ho : o ≠ ServerOutcome.success)
    (hcall : (loginSubmitStart s).2 = true) :
    (loginSubmitResolve (loginSubmitStart s).1 o).formData = s.formData ∧
    (loginSubmitResolve (loginSubmitStart s).1 o).errors = s.errors ∧
    (loginSubmitResolve (loginSubmitStart s).1 o).onSuccessCalls = s.onSuccessCalls ∧
    (loginSubmitResolve (loginSubmitStart s).1 o).isSubmitting = false := by
  have hval := (loginSubmitStart_called_iff s).mp hcall
  rw [loginSubmitStart_of_valid s hval]
  cases o with
  | success => exact absurd rfl ho
  | failure err =>
      rw [loginSubmitResolve_failure]
      simp
  | thrown =>
      rw [loginSubmitResolve_thrown]
      simp

/-- A reachable PostForm UI state with a valid title and content, obtained
from a fresh mount by two change events. -/
def postDemoState : PostUIState :=
  { form := postHandleChange (postHandleChange initialPostFormState PostField.title "Hello")
      PostField.content "Body"
    flight := 0 }

/-- The demo state is reachable from a fresh mount. -/
lemma postDemoReachable : PostReachable postDemoState := by
  have h1 : PostReachable
      { form := postHandleChange postInit.form PostField.title "Hello",
        flight := postInit.flight } :=
    PostReachable.step PostReachable.init (postStep.change postInit PostField.title "Hello" rfl)
  exact PostReachable.step h1 (postStep.change _ PostField.content "Body" rfl)

/-- A LoginForm state with both fields filled in. -/
def loginDemoState : LoginFormState :=
  { formData := { email := "user@example.com", password := "hunter2" }
    errors := noLoginErrors
    isSubmitting := false
    serverError := ""
    onSuccessCalls := 0 }

/-- C1: in PostForm, a title change while the slug has not been manually
edited derives the slug deterministically from the new title (so "Hello
World" yields "hello-world"); a change event on the slug field sets the
manual-edit flag; once that flag is set, title changes leave the slug
unchanged, and the flag survives every further change event. -/
theorem post_slug_derivation :
    generateSlug "Hello World" = "hello-world" ∧
    (∀ (s : PostFormState) (v : String), s.isSlugManuallyEdited = false →
      (postHandleChange s PostField.title v).formData.slug = generateSlug v) ∧
    (∀ (s : PostFormState) (v : String),
      (postHandleChange s PostField.slug v).isSlugManuallyEdited = true) ∧
    (∀ (s : PostFormState) (v : String), s.isSlugManuallyEdited = true →
      (postHandleChange s PostField.title v).formData.slug = s.formData.slug) ∧
    (∀ (s : PostFormState) (evs : List (PostField × String)),
      s.isSlugManuallyEdited = true →
        (applyPostChanges s evs).isSlugManuallyEdited = true) := by
  refine ⟨by decide, ?_, ?_, ?_, ?_⟩
  · intro s v h
    simp [postHandleChange, h]
  · intro s v
    simp
  · intro s v h
    simp [postHandleChange, h]
  · intro s evs
    induction evs generalizing s with
    | nil => intro h; exact h
    | cons e evs ih =>
        intro h
        rw [applyPostChanges_cons]
        exact ih _ (by simp [h])

/-- Witness for C1 at a concrete state: the fresh PostForm has no manual
slug edit, and typing the title "Hello World" derives its slug. -/
theorem post_slug_derivation_witness :
    initialPostFormState.isSlugManuallyEdited = false ∧
    (postHandleChange initialPostFormState PostField.title "Hello World").formData.slug =
      generateSlug "Hello World" :=
  ⟨rfl, post_slug_derivation.2.1 initialPostFormState "Hello World" rfl⟩

/-- C2: in every reachable state of the PostForm UI, at most one of
serverError and successMessage is a non-empty string. -/
theorem post_banners_mutually_exclusive (u : PostUIState) (h : PostReachable u) :
    u.form.serverError = "" ∨ u.form.successMessage = "" :=
  (postInv_reachable h).1

/-- Witness for C2 at the initial state, which is reachable. -/
theorem post_banners_mutually_exclusive_witness :
    postInit.form.serverError = "" ∨ postInit.form.successMessage = "" :=
  post_banners_mutually_exclusive postInit PostReachable.init

/-- C3: when validation returns a non-empty error map, submitting stores
that map in the field errors and returns without starting the server call
(for any would-be outcome the handler stops at the synchronous prefix),
in both PostForm and LoginForm; and the empty form data of each form does
validate to a non-empty error map. -/
theorem validation_blocks_submission :
    (∀ (s : PostFormState),
      postErrorsNonEmpty (validatePostForm s.formData) = true →
        (postSubmitStart s).2 = false ∧
        (postSubmitStart s).1.errors = validatePostForm s.formData ∧
        (postSubmitStart s).1.formData = s.formData ∧
        (postSubmitStart s).1.isSubmitting = s.isSubmitting ∧
        (∀ o : ServerOutcome, postHandleSubmit s o = (postSubmitStart s).1)) ∧
    (∀ (s : LoginFormState),
      loginErrorsNonEmpty (validateLoginForm s.formData) = true →
        (loginSubmitStart s).2 = false ∧
        (loginSubmitStart s).1.errors = validateLoginForm s.formData ∧
        (loginSubmitStart s).1.formData = s.formData ∧
        (loginSubmitStart s).1.isSubmitting = s.isSubmitting ∧
        (∀ o : ServerOutcome, loginHandleSubmit s o = (loginSubmitStart s).1)) ∧
    postErrorsNonEmpty (validatePostForm initialPostFormData) = true ∧
    loginErrorsNonEmpty (validateLoginForm initialLoginFormData) = true := by
  refine ⟨?_, ?_, by decide, by decide⟩
  · intro s h
    rw [postSubmitStart_of_invalid s h]
    refine ⟨rfl, rfl, rfl, rfl, ?_⟩
    intro o
    simp [postHandleSubmit, postSubmitStart_of_invalid s h]
  · intro s h
    rw [loginSubmitStart_of_invalid s h]
    refine ⟨rfl, rfl, rfl, rfl, ?_⟩
    intro o
    simp [loginHandleSubmit, loginSubmitStart_of_invalid s h]

/-- Witness for C3 at the fresh PostForm, whose empty title and content
fail validation, so no createPost call is started. -/
theorem validation_blocks_submission_witness :
    postErrorsNonEmpty (validatePostForm initialPostFormState.formData) = true ∧
    (postSubmitStart initialPostFormState).2 = false :=
  ⟨by decide, (validation_blocks_submission.1 initialPostFormState (by decide)).1⟩

/-- C4: a submission whose server call resolves with success false or
throws leaves the entered form data exactly as it was when the submission
started; the field errors, the success message, the manual-slug flag and
the onSuccess count are untouched too, and the submitting flag ends
lowered — in PostForm (over reachable UI states) and in LoginForm. -/
theorem failed_submission_preserves_formData :
    (∀ (u : PostUIState), PostReachable u →
      ∀ (o : ServerOutcome), o ≠ ServerOutcome.success →
        (postSubmitStart u.form).2 = true →
          (postSubmitResolve (postSubmitStart u.form).1 o).formData = u.form.formData ∧
          (postSubmitResolve (postSubmitStart u.form).1 o).errors = u.form.errors ∧
          (postSubmitResolve (postSubmitStart u.form).1 o).successMessage =
            u.form.successMessage ∧
          (postSubmitResolve (postSubmitStart u.form).1 o).isSlugManuallyEdited =
            u.form.isSlugManuallyEdited ∧
          (postSubmitResolve (postSubmitStart u.form).1 o).onSuccessCalls =
            u.form.onSuccessCalls ∧
          (postSubmitResolve (postSubmitStart u.form).1 o).isSubmitting = false) ∧
    (∀ (s : LoginFormState) (o : ServerOutcome), o ≠ ServerOutcome.success →
      (loginSubmitStart s).2 = true →
        (loginSubmitResolve (loginSubmitStart s).1 o).formData = s.formData ∧
        (loginSubmitResolve (loginSubmitStart s).1 o).errors = s.errors ∧
        (loginSubmitResolve (loginSubmitStart s).1 o).onSuccessCalls = s.onSuccessCalls ∧
        (loginSubmitResolve (loginSubmitStart s).1 o).isSubmitting = false) :=
  ⟨fun u hr o ho hcall => post_resolve_nonsuccess_frame u hr o ho hcall,
   fun s o ho hcall => login_resolve_nonsuccess_frame s o ho hcall⟩

/-- Witness for C4 at a concrete reachable state with valid data: a
thrown createPost leaves the entered form data unchanged. -/
theorem failed_submission_preserves_formData_witness :
    (postSubmitStart postDemoState.form).2 = true ∧
    (postSubmitResolve (postSubmitStart postDemoState.form).1 ServerOutcome.thrown).formData =
      postDemoState.form.formData :=
  ⟨by decide,
   (failed_submission_preserves_formData.1 postDemoState postDemoReachable
      ServerOutcome.thrown (by decide) (by decide)).1⟩

/-- C5 counterexample: in LoginForm, a submission whose authorizeUser call
resolves with success true does not reset the entered form data to the
empty defaults — handleSubmit leaves both fields exactly as typed. -/
theorem login_success_does_not_reset_formData :
    (loginHandleSubmit loginDemoState ServerOutcome.success).formData ≠
      initialLoginFormData ∧
    (loginHandleSubmit loginDemoState ServerOutcome.success).formData =
      loginDemoState.formData := by
  constructor
  · decide
  · decide

/-- C5 as amended: on a success resolution, PostForm resets its form data
to the empty defaults and signals onSuccess, while LoginForm signals
onSuccess but leaves its form data unchanged, relying on the subsequent
full-page reload to discard it. -/
theorem success_resets_postForm_only :
    (∀ (s : PostFormState),
      (postSubmitResolve s ServerOutcome.success).formData = initialPostFormData ∧
      (postSubmitResolve s ServerOutcome.success).onSuccessCalls = s.onSuccessCalls + 1) ∧
    (∀ (s : LoginFormState),
      (loginSubmitResolve s ServerOutcome.success).formData = s.formData ∧
      (loginSubmitResolve s ServerOutcome.success).onSuccessCalls = s.onSuccessCalls + 1) :=
  ⟨fun _ => ⟨rfl, rfl⟩, fun _ => ⟨rfl, rfl⟩⟩

/-- C6: a change event on a field that currently has a validation error
clears exactly that field's error entry; every other field's entry is
left unchanged by the change handler, in PostForm and in LoginForm. -/
theorem edit_clears_only_that_error :
    (∀ (s : PostFormState) (f : PostField) (v : String),
      ((s.errors.get f).isSome = true →
        (postHandleChange s f v).errors.get f = none) ∧
      (∀ g : PostField, g ≠ f →
        (postHandleChange s f v).errors.get g = s.errors.get g)) ∧
    (∀ (s : LoginFormState) (f : LoginField) (v : String),
      ((s.errors.get f).isSome = true →
        (loginHandleChange s f v).errors.get f = none) ∧
      (∀ g : LoginField, g ≠ f →
        (loginHandleChange s f v).errors.get g = s.errors.get g)) := by
  constructor
  · intro s f v
    constructor
    · intro h
      cases f <;> simp [postHandleChange_errors, PostFormErrors.get, h] <;>
        simp [PostFormErrors.get] at h <;> simp [h]
    · intro g hg
      cases f <;> cases g <;>
        first
          | exact absurd rfl hg
          | (simp only [postHandleChange_errors]; split <;> rfl)
  · intro s f v
    constructor
    · intro h
      cases f <;> simp [loginHandleChange_errors, LoginFormErrors.get, h] <;>
        simp [LoginFormErrors.get] at h <;> simp [h]
    · intro g hg
      cases f <;> cases g <;>
        first
          | exact absurd rfl hg
          | (simp only [loginHandleChange_errors]; split <;> rfl)

/-- A PostForm state carrying a validation error on the title field. -/
def postErrorDemoState : PostFormState :=
  { initialPostFormState with
    errors := { title := some "Title is required", slug := none, content := none } }

/-- Witness for C6 at a concrete state: editing the erroneous title field
clears its error and leaves the content entry untouched. -/
theorem edit_clears_only_that_error_witness :
    (postErrorDemoState.errors.get PostField.title).isSome = true ∧
    (postHandleChange postErrorDemoState PostField.title "x").errors.get PostField.title =
      none ∧
    (postHandleChange postErrorDemoState PostField.title "x").errors.get PostField.content =
      postErrorDemoState.errors.get PostField.content :=
  ⟨by decide,
   (edit_clears_only_that_error.1 postErrorDemoState PostField.title "x").1 (by decide),
   (edit_clears_only_that_error.1 postErrorDemoState PostField.title "x").2
     PostField.content (by decide)⟩

/-- A LoginForm change event keeps the submitting flag. -/
lemma loginHandleChange_isSubmitting (s : LoginFormState) (f : LoginField) (v : String) :
    (loginHandleChange s f v).isSubmitting = s.isSubmitting := rfl

/-- A resolved authorizeUser call always lowers the submitting flag. -/
lemma loginSubmitResolve_isSubmitting (s : LoginFormState) (o : ServerOutcome) :
    (loginSubmitResolve s o).isSubmitting = false := by
  cases o <;> rfl

/-- UI-level state of a mounted LoginForm: the component state plus the
number of authorizeUser calls currently in flight. -/
structure LoginUIState where
  form : LoginFormState
  flight : Nat
deriving Repr, DecidableEq

/-- A freshly mounted LoginForm with no call in flight. -/
def loginInit : LoginUIState :=
  { form := initialLoginFormState, flight := 0 }

/-- Event-step relation of the LoginForm UI.  Both inputs and the submit
button carry disabled set to isSubmitting, so change and submit events can
only be delivered while isSubmitting is false; a server call resolves only
while one is in flight.  Starting a submission that passes validation puts
one authorizeUser call in flight; its resolution removes it. -/
inductive loginStep : LoginUIState → LoginUIState → Prop where
  | change (u : LoginUIState) (f : LoginField) (v : String)
      (hsub : u.form.isSubmitting = false) :
      loginStep u { form := loginHandleChange u.form f v, flight := u.flight }
  | submitStart (u : LoginUIState)
      (hsub : u.form.isSubmitting = false) :
      loginStep u { form := (loginSubmitStart u.form).1,
                    flight := u.flight + (if (loginSubmitStart u.form).2 then 1 else 0) }
  | submitResolve (u : LoginUIState) (o : ServerOutcome)
      (hfl : 0 < u.flight) :
      loginStep u { form := loginSubmitResolve u.form o, flight := u.flight - 1 }

/-- States of the LoginForm UI reachable from a fresh mount by events. -/
inductive LoginReachable : LoginUIState → Prop where
  | init : LoginReachable loginInit
  | step {s t : LoginUIState} (hs : LoginReachable s) (h : loginStep s t) :
      LoginReachable t

/-- Inductive invariant of the LoginForm UI: the number of in-flight
authorizeUser calls is one while submitting and zero otherwise. -/
def LoginFlightInv (u : LoginUIState) : Prop :=
  u.flight = (if u.form.isSubmitting then 1 else 0)

/-- The LoginForm flight invariant holds at mount. -/
lemma loginFlightInv_init : LoginFlightInv loginInit := rfl

/-- Every event step of the LoginForm UI preserves the flight invariant. -/
lemma loginFlightInv_step {u t : LoginUIState} (hu : LoginFlightInv u)
    (h : loginStep u t) : LoginFlightInv t := by
  unfold LoginFlightInv at hu ⊢
  cases h with
  | change f v hsub =>
      simpa [loginHandleChange_isSubmitting, hsub] using hu
  | submitStart hsub =>
      by_cases hval : loginErrorsNonEmpty (validateLoginForm u.form.formData) = true
      · simp only [loginSubmitStart_of_invalid u.form hval]
        simpa [hsub] using hu
      · replace hval : loginErrorsNonEmpty (validateLoginForm u.form.formData) = false := by
          simpa using hval
        simp only [loginSubmitStart_of_valid u.form hval]
        simpa [hsub] using hu
  | submitResolve o hfl =>
      have hsub : u.form.isSubmitting = true := by
        by_contra hb
        rw [if_neg hb] at hu
        omega
      rw [if_pos hsub] at hu
      simp [loginSubmitResolve_isSubmitting, hu]

/-- Every reachable state of the LoginForm UI satisfies the invariant. -/
lemma loginFlightInv_reachable {u : LoginUIState} (h : LoginReachable u) :
    LoginFlightInv u := by
  induction h with
  | init => exact loginFlightInv_init
  | step _ hstep ih => exact loginFlightInv_step ih hstep

/-- C7: in every reachable state of either form's UI at most one server
call (createPost for PostForm, authorizeUser for LoginForm) is in flight;
the events are guarded by the disabled submitting flag, so a second call
can never be initiated while one is pending. -/
theorem at_most_one_call_in_flight :
    (∀ (u : PostUIState), PostReachable u → u.flight ≤ 1) ∧
    (∀ (u : LoginUIState), LoginReachable u → u.flight ≤ 1) := by
  constructor
  · intro u h
    have h4 := (postInv_reachable h).2.2.2
    rw [h4]
    split <;> simp
  · intro u h
    have h4 := loginFlightInv_reachable h
    rw [LoginFlightInv] at h4
    rw [h4]
    split <;> simp

/-- Witness for C7 at the initial states, which are reachable. -/
theorem at_most_one_call_in_flight_witness :
    postInit.flight ≤ 1 ∧ loginInit.flight ≤ 1 :=
  ⟨at_most_one_call_in_flight.1 postInit PostReachable.init,
   at_most_one_call_in_flight.2 loginInit LoginReachable.init⟩

/-- C8: a submission whose server call throws has the exception caught
and mapped to the fixed generic message in serverError; entered data,
field errors, the success message, the manual-slug flag and the onSuccess
count stay as they were, and the submitting flag ends lowered — in
PostForm (over reachable UI states) and in LoginForm. -/
theorem thrown_exception_generic_message :
    (∀ (u : PostUIState), PostReachable u →
      (postSubmitStart u.form).2 = true →
        (postSubmitResolve (postSubmitStart u.form).1 ServerOutcome.thrown).serverError =
          "An unexpected error occurred" ∧
        (postSubmitResolve (postSubmitStart u.form).1 ServerOutcome.thrown).formData =
          u.form.formData ∧
        (postSubmitResolve (postSubmitStart u.form).1 ServerOutcome.thrown).errors =
          u.form.errors ∧
        (postSubmitResolve (postSubmitStart u.form).1 ServerOutcome.thrown).successMessage =
          u.form.successMessage ∧
        (postSubmitResolve (postSubmitStart u.form).1 ServerOutcome.thrown).isSlugManuallyEdited =
          u.form.isSlugManuallyEdited ∧
        (postSubmitResolve (postSubmitStart u.form).1 ServerOutcome.thrown).onSuccessCalls =
          u.form.onSuccessCalls ∧
        (postSubmitResolve (postSubmitStart u.form).1 ServerOutcome.thrown).isSubmitting =
          false) ∧
    (∀ (s : LoginFormState),
      (loginSubmitStart s).2 = true →
        (loginSubmitResolve (loginSubmitStart s).1 ServerOutcome.thrown).serverError =
          "An unexpected error occurred" ∧
        (loginSubmitResolve (loginSubmitStart s).1 ServerOutcome.thrown).formData =
          s.formData ∧
        (loginSubmitResolve (loginSubmitStart s).1 ServerOutcome.thrown).errors = s.errors ∧
        (loginSubmitResolve (loginSubmitStart s).1 ServerOutcome.thrown).onSuccessCalls =
          s.onSuccessCalls ∧
        (loginSubmitResolve (loginSubmitStart s).1 ServerOutcome.thrown).isSubmitting =
          false) := by
  constructor
  · intro u hr hcall
    have hf := post_resolve_nonsuccess_frame u hr ServerOutcome.thrown (by decide) hcall
    exact ⟨rfl, hf.1, hf.2.1, hf.2.2.1, hf.2.2.2.1, hf.2.2.2.2.1, hf.2.2.2.2.2⟩
  · intro s hcall
    have hf := login_resolve_nonsuccess_frame s ServerOutcome.thrown (by decide) hcall
    exact ⟨rfl, hf.1, hf.2.1, hf.2.2.1, hf.2.2.2⟩

/-- Witness for C8 at a concrete reachable state with valid data: a
thrown createPost yields the generic message. -/
theorem thrown_exception_generic_message_witness :
    (postSubmitStart postDemoState.form).2 = true ∧
    (postSubmitResolve (postSubmitStart postDemoState.form).1 ServerOutcome.thrown).serverError =
      "An unexpected error occurred" :=
  ⟨by decide,
   (thrown_exception_generic_message.1 postDemoState postDemoReachable (by decide)).1⟩

/-- The category toggling on plain id lists, as performed by
handleCategoryToggle on the selection inside the form data. -/
def toggleList (l : List String) (c : String) : List String :=
  if c ∈ l then l.filter (fun i => i != c) else l ++ [c]

/-- The toggle handler rewrites the selection with toggleList. -/
lemma handleCategoryToggle_eq_toggleList (s : PostFormState) (c : String) :
    (handleCategoryToggle s c).formData.categories =
      toggleList s.formData.categories c := rfl

/-- Membership after one toggle: the toggled id flips its membership, all
other ids keep theirs. -/
lemma mem_toggleList (l : List String) (c x : String) :
    x ∈ toggleList l c ↔ (if x = c then c ∉ l else x ∈ l) := by
  unfold toggleList
  by_cases hc : c ∈ l
  · rw [if_pos hc]
    by_cases hx : x = c
    · subst hx
      simp [List.mem_filter, hc]
    · simp [List.mem_filter, hx]
  · rw [if_neg hc]
    by_cases hx : x = c
    · subst hx
      simp [hc]
    · simp [hx]

/-- Membership after two toggles of the same id is membership in the
original list. -/
lemma mem_toggleList_twice (l : List String) (c x : String) :
    x ∈ toggleList (toggleList l c) c ↔ x ∈ l := by
  rw [mem_toggleList]
  by_cases hx : x = c
  · subst hx
    rw [if_pos rfl, mem_toggleList]
    simp
  · rw [if_neg hx, mem_toggleList, if_neg hx]

/-- C9: toggling a category adds the id when absent and removes every
occurrence when present (its membership flips, everything else keeps its
membership), and toggling the same id twice restores the original set of
selected categories. -/
theorem category_toggle_involutive :
    ∀ (s : PostFormState) (categoryId : String),
      (∀ x : String,
        x ∈ (handleCategoryToggle s categoryId).formData.categories ↔
          (if x = categoryId then categoryId ∉ s.formData.categories
           else x ∈ s.formData.categories)) ∧
      (∀ x : String,
        x ∈ (handleCategoryToggle (handleCategoryToggle s categoryId)
              categoryId).formData.categories ↔
          x ∈ s.formData.categories) := by
  intro s c
  constructor
  · intro x
    rw [handleCategoryToggle_eq_toggleList, mem_toggleList]
  · intro x
    rw [handleCategoryToggle_eq_toggleList, handleCategoryToggle_eq_toggleList,
      mem_toggleList_twice]

/-- C10: the success branch of a PostForm submission resets the
manual-slug-edit flag, so a subsequent title change derives the slug
again even if the slug had been manually edited before. -/
theorem success_restores_slug_derivation :
    ∀ (s : PostFormState) (v : String),
      (postSubmitResolve s ServerOutcome.success).isSlugManuallyEdited = false ∧
      (postHandleChange (postSubmitResolve s ServerOutcome.success)
        PostField.title v).formData.slug = generateSlug v := by
  intro s v
  refine ⟨rfl, ?_⟩
  simp [postSubmitResolve_success, postHandleChange]

end Payload
